import Mathlib

/-!
Verification of the offer-approval and payment-settlement workflow of the
neighbor-help marketplace.

The embedding translates, from the repository source:
  * the relational schema (needs, help_offers, commissions, profiles) from the
    SQL migrations, modelled as lists of records inside a `Store`;
  * the `process-payment` edge function (`src/supabase/functions/process-payment/index.ts`),
    modelled as `processPayment`, with the two external effects (the processor
    checkout-session call and the commission insert) made explicit through the
    `stripeOk` / `insertOk` outcome parameters;
  * the `stripe-connect-webhook` edge function
    (`src/supabase/functions/stripe-connect-webhook/index.ts`), modelled as
    `handleCheckoutSessionCompleted` and `handleAccountUpdated`;
  * the offer-creation and approval handlers of `src/src/pages/NeedDetail.tsx`
    together with the `UNIQUE(need_id, helper_user_id)` constraint of the
    migration, modelled as `insertHelpOffer`, `approveAsRequesterStore` and
    `approveAsHelperStore`.

Monetary amounts are decimals in the source (SQL `DECIMAL(10,2)` / `NUMERIC`,
JavaScript numbers); they are modelled as exact rationals `ℚ`.  JavaScript's
`Math.round` is modelled by `jsRound` (floor of x + 1/2, which is what
`Math.round` computes on all reals).  Timestamps are opaque strings supplied by
the caller.  Identifiers (uuids) are strings.
-/

/-- Need status, from the SQL enum `need_status`.  `open` is a Lean keyword, so
the first constructor is spelled `open_`. -/
inductive NeedStatus where
  | open_
  | pending_helper_contact
  | pending_requester_contact
  | in_progress
  | completed
  | cancelled
  deriving DecidableEq, Repr

/-- Row of `public.needs` (fields the workflow reads; timestamps omitted).
`budget_amount DECIMAL(10,2)` is nullable, hence `Option ℚ`. -/
structure Need where
  id : String
  user_id : String
  title : String
  budget_amount : Option ℚ
  budget_currency : String
  status : NeedStatus
  deriving DecidableEq, Repr

/-- Row of `public.help_offers` (timestamps omitted).  The migration declares
`UNIQUE(need_id, helper_user_id)` on this table. -/
structure HelpOffer where
  id : String
  need_id : String
  helper_user_id : String
  message : Option String
  requester_approved : Bool
  helper_approved : Bool
  deriving DecidableEq, Repr

/-- Row of `public.commissions`.  `status` is a TEXT column; the handlers write
the strings "pending", "transfer_pending" and "completed". -/
structure Commission where
  need_id : String
  help_offer_id : String
  helper_user_id : String
  requester_user_id : String
  original_amount : ℚ
  commission_amount : ℚ
  commission_rate : ℚ
  currency : String
  stripe_payment_intent_id : Option String
  stripe_transfer_id : Option String
  status : String
  completed_at : Option String
  deriving DecidableEq, Repr

/-- The PaymentAccount fields of `public.profiles` used by the workflow:
`stripe_account_id TEXT` (nullable) and
`stripe_onboarding_complete BOOLEAN DEFAULT false`. -/
structure Profile where
  user_id : String
  stripe_account_id : Option String
  stripe_onboarding_complete : Bool
  deriving DecidableEq, Repr

/-- The ledger store: the four tables the settlement workflow touches. -/
structure Store where
  needs : List Need
  offers : List HelpOffer
  commissions : List Commission
  profiles : List Profile
  deriving DecidableEq, Repr

/-- Checkout-session metadata, as written by `process-payment`
(`metadata: { need_id, help_offer_id, commission_amount, helper_amount,
helper_user_id, requester_user_id }`) and read back by the webhook.  The
webhook guards only on `helper_user_id` and `helper_amount`
(`if (!helper_user_id || !helper_amount) break`), so those are optional here;
`helper_amount` is stored as a decimal string in the source and parsed with
`parseFloat`, modelled as the rational it denotes. -/
structure SessionMeta where
  need_id : String
  help_offer_id : String
  commission_amount : Option ℚ
  helper_amount : Option ℚ
  helper_user_id : Option String
  requester_user_id : Option String
  deriving DecidableEq, Repr

/-- A processor checkout session: id, `payment_status`, the single line item's
`unit_amount` (in öre/cents) and currency, and the metadata attached at
creation. -/
structure CheckoutSession where
  id : String
  payment_status : String
  unit_amount : ℤ
  currency : String
  metadata : Option SessionMeta
  deriving DecidableEq, Repr

/-- A funds transfer created at the processor (`stripe.transfers.create`). -/
structure Transfer where
  id : String
  amount : ℤ
  currency : String
  destination : String
  deriving DecidableEq, Repr

/-- JavaScript `Math.round`: round half toward positive infinity,
i.e. `⌊x + 1/2⌋`. -/
def jsRound (q : ℚ) : ℤ := ⌊q + 1/2⌋

/-- `.from(t).select(...).eq("id", i).single()` on a list keyed by `id`. -/
def findNeed (needs : List Need) (i : String) : Option Need :=
  needs.find? fun n => n.id = i

/-- `.from("help_offers").select("*").eq("id", i).single()`. -/
def findOffer (offers : List HelpOffer) (i : String) : Option HelpOffer :=
  offers.find? fun o => o.id = i

/-- `.from("profiles").select(...).eq("user_id", u).single()`. -/
def findProfile (profiles : List Profile) (u : String) : Option Profile :=
  profiles.find? fun p => p.user_id = u

/-- `.from("commissions").update(f).eq("help_offer_id", oid)`: applies the
update to every commission row whose `help_offer_id` matches. -/
def updateCommissionsByOffer (cs : List Commission) (oid : String)
    (f : Commission → Commission) : List Commission :=
  cs.map fun c => if c.help_offer_id = oid then f c else c

/-- `.from("needs").update({status}).eq("id", nid)`. -/
def updateNeedStatus (ns : List Need) (nid : String) (s : NeedStatus) : List Need :=
  ns.map fun n => if n.id = nid then { n with status := s } else n

/-- `.from("profiles").update({stripe_onboarding_complete}).eq("user_id", uid)`. -/
def updateProfileOnboarding (ps : List Profile) (uid : String) (b : Bool) : List Profile :=
  ps.map fun p => if p.user_id = uid then { p with stripe_onboarding_complete := b } else p

/-- The errors `process-payment` can throw before returning HTTP 500 (each is a
distinct `throw new Error(...)` message in the source), in source order. -/
inductive PayError where
  | needNotFound
  | offerNotFound
  | notApproved
  | requesterEmailNotFound
  | upstream
  deriving DecidableEq, Repr

deriving instance DecidableEq for Except

/-- Result of one `process-payment` request: the resulting store, the HTTP
response (the created session on 200, the thrown error on 500), and the
checkout sessions created at the processor during the request. -/
structure PayOutcome where
  store : Store
  response : Except PayError CheckoutSession
  sessionsCreated : List CheckoutSession
  deriving DecidableEq, Repr

/-- `const commissionRate = 0.10` in `process-payment`. -/
def commissionRate : ℚ := 1/10

/-- `const commissionAmount = originalAmount * commissionRate` — no rounding is
applied in the source. -/
def commissionAmountOf (originalAmount : ℚ) : ℚ := originalAmount * commissionRate

/-- `const helperAmount = originalAmount - commissionAmount`. -/
def helperAmountOf (originalAmount : ℚ) : ℚ :=
  originalAmount - commissionAmountOf originalAmount

/-- The commission split the specification prescribes
(`commission_amount = round(original_amount * rate, 2)` with half-up rounding
at two decimals).  Declared only to compare against the source computation. -/
def specRoundHalfUp2 (q : ℚ) : ℚ := (⌊q * 100 + 1/2⌋ : ℚ) / 100

/-- `const originalAmount = need.budget_amount || 0`: a null budget coalesces
to 0 (and a zero budget stays 0, so `Option.getD` is the same function). -/
def originalAmountOf (need : Need) : ℚ := need.budget_amount.getD 0

/-- The checkout session `process-payment` asks the processor to create:
one line item priced `Math.round(originalAmount * 100)` in the need's
lowercased currency, and the need id, offer id, computed split and both party
identities as metadata. -/
def checkoutSessionFor (need : Need) (offer : HelpOffer)
    (need_id help_offer_id sid : String) : CheckoutSession :=
  { id := sid
    payment_status := "unpaid"
    unit_amount := jsRound (originalAmountOf need * 100)
    currency := need.budget_currency.toLower
    metadata := some
      { need_id := need_id
        help_offer_id := help_offer_id
        commission_amount := some (commissionAmountOf (originalAmountOf need))
        helper_amount := some (helperAmountOf (originalAmountOf need))
        helper_user_id := some offer.helper_user_id
        requester_user_id := some need.user_id } }

/-- The commission row `process-payment` inserts after the session is
created: status "pending", keyed to the session id, split snapshotted. -/
def pendingCommissionFor (need : Need) (offer : HelpOffer)
    (need_id help_offer_id sid : String) : Commission :=
  { need_id := need_id
    help_offer_id := help_offer_id
    helper_user_id := offer.helper_user_id
    requester_user_id := need.user_id
    original_amount := originalAmountOf need
    commission_amount := commissionAmountOf (originalAmountOf need)
    commission_rate := commissionRate
    currency := need.budget_currency
    stripe_payment_intent_id := some sid
    stripe_transfer_id := none
    status := "pending"
    completed_at := none }

/-- The `process-payment` edge function
(`src/supabase/functions/process-payment/index.ts`), after authentication.

External effects are explicit: `requesterEmail` is the result of the
requester-email lookup (`throw` when absent), `stripeOk` tells whether
`stripe.checkout.sessions.create` succeeds (a failure is thrown and caught as
HTTP 500 before any local write), `freshSessionId` is the id the processor
assigns, and `insertOk` tells whether the commission insert succeeds — note
that the source only LOGS an insert error and still returns 200.

Faithful details: the need and offer are looked up by their ids only (the
source never checks `offer.need_id = need_id` and never checks `need.status`);
the approval guard is `!offer.requester_approved || !offer.helper_approved`;
`originalAmount = need.budget_amount || 0` (null coalesces to 0);
`unit_amount = Math.round(originalAmount * 100)`. -/
def processPayment (st : Store) (need_id help_offer_id : String)
    (requesterEmail : Option String) (stripeOk : Bool) (freshSessionId : String)
    (insertOk : Bool) : PayOutcome :=
  match findNeed st.needs need_id with
  | none => ⟨st, .error .needNotFound, []⟩
  | some need =>
    match findOffer st.offers help_offer_id with
    | none => ⟨st, .error .offerNotFound, []⟩
    | some offer =>
      if !offer.requester_approved || !offer.helper_approved then
        ⟨st, .error .notApproved, []⟩
      else
        match requesterEmail with
        | none => ⟨st, .error .requesterEmailNotFound, []⟩
        | some _ =>
          if !stripeOk then ⟨st, .error .upstream, []⟩
          else
            let session := checkoutSessionFor need offer need_id help_offer_id freshSessionId
            let newCommission := pendingCommissionFor need offer need_id help_offer_id freshSessionId
            let st' :=
              if insertOk then { st with commissions := st.commissions ++ [newCommission] }
              else st
            ⟨st', .ok session, [session]⟩

/-- The `checkout.session.completed` case of the `stripe-connect-webhook`
edge function (`src/supabase/functions/stripe-connect-webhook/index.ts`,
lines 41-111), as a function of the current store and the session carried by
the event.  `freshTransferId` is the id the processor assigns when
`stripe.transfers.create` is called, `now` is `new Date().toISOString()`.
Returns the updated store and the list of transfers created during the call.

Faithful details, in source order:
  * nothing happens unless `session.payment_status === "paid"` and
    `session.metadata` is present;
  * if `helper_user_id` or `helper_amount` is missing the event is logged and
    skipped;
  * the helper profile is looked up by `user_id`; if there is no row, no
    `stripe_account_id`, or `stripe_onboarding_complete` is false, every
    commission with this `help_offer_id` is set to status "transfer_pending"
    and the handler stops;
  * otherwise a transfer of `Math.round(parseFloat(helper_amount) * 100)`
    öre is created, the commissions with this `help_offer_id` are set to
    status "completed" with the transfer id and completion time, and the need
    is set to status completed.  The source never reads the commission's
    current status before doing any of this. -/
def handleCheckoutSessionCompleted (st : Store) (session : CheckoutSession)
    (freshTransferId : String) (now : String) : Store × List Transfer :=
  if session.payment_status = "paid" then
    match session.metadata with
    | none => (st, [])
    | some md =>
      match md.helper_user_id, md.helper_amount with
      | some helper_user_id, some helper_amount =>
        let pendingBranch : Store × List Transfer :=
          ({ st with
              commissions := updateCommissionsByOffer st.commissions md.help_offer_id
                fun c => { c with status := "transfer_pending" } }, [])
        match findProfile st.profiles helper_user_id with
        | none => pendingBranch
        | some helperProfile =>
          match helperProfile.stripe_account_id with
          | none => pendingBranch
          | some acct =>
            if !helperProfile.stripe_onboarding_complete then pendingBranch
            else
              let transfer : Transfer :=
                { id := freshTransferId
                  amount := jsRound (helper_amount * 100)
                  currency := "sek"
                  destination := acct }
              let st1 :=
                { st with
                    commissions := updateCommissionsByOffer st.commissions md.help_offer_id
                      fun c =>
                        { c with
                            status := "completed"
                            stripe_transfer_id := some transfer.id
                            completed_at := some now } }
              let st2 :=
                { st1 with needs := updateNeedStatus st1.needs md.need_id .completed }
              (st2, [transfer])
      | _, _ => (st, [])
  else (st, [])

/-- An `account.updated` processor event: the connected account's
`details_submitted` and `payouts_enabled` flags and the `user_id` the account
carries in its metadata (set at account creation; absent for accounts of an
unrelated integration). -/
structure AccountEvent where
  account_id : String
  details_submitted : Bool
  payouts_enabled : Bool
  metadata_user_id : Option String
  deriving DecidableEq, Repr

/-- The `account.updated` case of the `stripe-connect-webhook` edge function
(lines 113-130): if the account metadata names a `user_id`, set that profile's
`stripe_onboarding_complete` to `details_submitted && payouts_enabled`;
otherwise do nothing. -/
def handleAccountUpdated (st : Store) (a : AccountEvent) : Store :=
  match a.metadata_user_id with
  | none => st
  | some uid =>
    let isComplete := a.details_submitted && a.payouts_enabled
    { st with profiles := updateProfileOnboarding st.profiles uid isComplete }

/-- Database-level errors surfaced to the handlers in `NeedDetail.tsx`. -/
inductive DbError where
  | conflict
  deriving DecidableEq, Repr

/-- `handleOfferHelp` in `src/src/pages/NeedDetail.tsx` inserts a row into
`help_offers`; the migration's `UNIQUE(need_id, helper_user_id)` constraint
rejects a second row for the same (need, helper) pair, which the handler
surfaces as an error and the store is left unchanged. -/
def insertHelpOffer (st : Store) (o : HelpOffer) : Except DbError Unit × Store :=
  if st.offers.any fun x => x.need_id = o.need_id && x.helper_user_id = o.helper_user_id then
    (.error .conflict, st)
  else
    (.ok (), { st with offers := st.offers ++ [o] })

/-- `handleApproveOffer` in `NeedDetail.tsx`:
`.from("help_offers").update({ requester_approved: true }).eq("id", offerId)`. -/
def approveAsRequesterStore (st : Store) (offerId : String) : Store :=
  { st with
      offers := st.offers.map fun o =>
        if o.id = offerId then { o with requester_approved := true } else o }

/-- `handleApproveFromHelper` in `NeedDetail.tsx`:
`.from("help_offers").update({ helper_approved: true }).eq("id", myOffer.id)`. -/
def approveAsHelperStore (st : Store) (offerId : String) : Store :=
  { st with
      offers := st.offers.map fun o =>
        if o.id = offerId then { o with helper_approved := true } else o }

/-! ### Concrete records used by the closed theorems and witnesses -/

def needA : Need :=
  { id := "need-1", user_id := "alice", title := "Flytthjälp",
    budget_amount := some 200, budget_currency := "SEK", status := .open_ }

def offerA : HelpOffer :=
  { id := "offer-1", need_id := "need-1", helper_user_id := "bob",
    message := some "Jag kan bära", requester_approved := true, helper_approved := true }

def bobOnboarded : Profile :=
  { user_id := "bob", stripe_account_id := some "acct_1",
    stripe_onboarding_complete := true }

def bobNoAccount : Profile :=
  { user_id := "bob", stripe_account_id := none, stripe_onboarding_complete := false }

def bobAccountIncomplete : Profile :=
  { user_id := "bob", stripe_account_id := some "acct_1",
    stripe_onboarding_complete := false }

def commissionPendingA : Commission :=
  { need_id := "need-1", help_offer_id := "offer-1", helper_user_id := "bob",
    requester_user_id := "alice", original_amount := 200, commission_amount := 20,
    commission_rate := commissionRate, currency := "SEK",
    stripe_payment_intent_id := some "cs_1", stripe_transfer_id := none,
    status := "pending", completed_at := none }

def paidMetaA : SessionMeta :=
  { need_id := "need-1", help_offer_id := "offer-1", commission_amount := some 20,
    helper_amount := some 180, helper_user_id := some "bob",
    requester_user_id := some "alice" }

def paidSessionA : CheckoutSession :=
  { id := "cs_1", payment_status := "paid", unit_amount := 20000, currency := "sek",
    metadata := some paidMetaA }

def storeSettleReady : Store :=
  { needs := [needA], offers := [offerA], commissions := [commissionPendingA],
    profiles := [bobOnboarded] }

def storeNoAccount : Store :=
  { needs := [needA], offers := [offerA], commissions := [commissionPendingA],
    profiles := [bobNoAccount] }

def needDone : Need := { needA with status := .completed }

def storeDoneNeed : Store :=
  { needs := [needDone], offers := [offerA], commissions := [],
    profiles := [bobOnboarded] }

def storePayReady : Store :=
  { needs := [needA], offers := [offerA], commissions := [],
    profiles := [bobOnboarded] }

def needNoBudget : Need := { needA with budget_amount := none }

def storeNoBudget : Store :=
  { needs := [needNoBudget], offers := [offerA], commissions := [],
    profiles := [bobOnboarded] }

def offerDup : HelpOffer :=
  { id := "offer-2", need_id := "need-1", helper_user_id := "bob", message := none,
    requester_approved := false, helper_approved := true }

def storeFresh : Store :=
  { needs := [needA], offers := [], commissions := [], profiles := [] }

def evtPartial : AccountEvent :=
  { account_id := "acct_1", details_submitted := true, payouts_enabled := false,
    metadata_user_id := some "bob" }

def evtComplete : AccountEvent :=
  { account_id := "acct_1", details_submitted := true, payouts_enabled := true,
    metadata_user_id := some "bob" }

def storeOnboarding : Store :=
  { needs := [], offers := [], commissions := [], profiles := [bobAccountIncomplete] }

/-- Claim C4, counterexample: the source applies no two-decimal half-up
rounding.  For an original amount of 0.15 SEK (representable in the schema's
`DECIMAL(10,2)`), the code computes a commission of 0.015 SEK, while
`round(A * R, 2)` with half-up rounding gives 0.02 SEK. -/
theorem c4_counterexample_no_rounding :
    commissionAmountOf (3/20) = 3/200 ∧
    specRoundHalfUp2 ((3/20) * commissionRate) = 2/100 ∧
    commissionAmountOf (3/20) ≠ specRoundHalfUp2 ((3/20) * commissionRate) := by
  refine ⟨?_, ?_, ?_⟩ <;>
    norm_num [commissionAmountOf, specRoundHalfUp2, commissionRate]

/-- Claim C4, amended: the commission split computed by `process-payment`
is `commission_amount = A * R` exactly, with NO rounding to the currency's
two-decimal minor unit; `helper_amount = A - commission_amount`, so
`commission_amount + helper_amount = A` holds exactly, and for A = 200 SEK at
the fixed rate 0.10 the commission is 20.00 SEK and the helper amount
180.00 SEK. -/
theorem c4_split_exact (A : ℚ) :
    commissionAmountOf A = A * commissionRate ∧
    helperAmountOf A = A - commissionAmountOf A ∧
    commissionAmountOf A + helperAmountOf A = A ∧
    commissionAmountOf 200 = 20 ∧
    helperAmountOf 200 = 180 := by
  refine ⟨rfl, rfl, ?_, ?_, ?_⟩ <;>
    norm_num [commissionAmountOf, helperAmountOf, commissionRate]

/-- Claim C8: mutual approval is order-independent — approving a help offer
as requester then as helper produces the same store as approving as helper
then as requester, and in the result the targeted offer has both approval
flags set. -/
theorem c8_approval_order_independent (st : Store) (offerId : String) :
    approveAsRequesterStore (approveAsHelperStore st offerId) offerId =
      approveAsHelperStore (approveAsRequesterStore st offerId) offerId ∧
    ∀ o ∈ (approveAsRequesterStore (approveAsHelperStore st offerId) offerId).offers,
      o.id = offerId → o.requester_approved = true ∧ o.helper_approved = true := by
  constructor
  · simp only [approveAsRequesterStore, approveAsHelperStore, List.map_map]
    congr 1
    apply List.map_congr_left
    intro o _
    by_cases h : o.id = offerId <;> simp [h]
  · intro o ho hid
    simp only [approveAsRequesterStore, approveAsHelperStore, List.map_map,
      List.mem_map, Function.comp] at ho
    obtain ⟨o0, _, rfl⟩ := ho
    by_cases h : o0.id = offerId <;> simp_all

/-- Claim C9: approving an offer (as requester or as helper) leaves the needs,
commissions and profiles tables untouched, and changes nothing of any offer
except the one approval flag: id, parent need, helper identity, message and
the other approval flag are all preserved. -/
theorem c9_approval_frame (st : Store) (offerId : String) :
    (approveAsRequesterStore st offerId).needs = st.needs ∧
    (approveAsHelperStore st offerId).needs = st.needs ∧
    (approveAsRequesterStore st offerId).commissions = st.commissions ∧
    (approveAsHelperStore st offerId).commissions = st.commissions ∧
    (approveAsRequesterStore st offerId).profiles = st.profiles ∧
    (approveAsHelperStore st offerId).profiles = st.profiles ∧
    (∀ o ∈ (approveAsRequesterStore st offerId).offers, ∃ o0, o0 ∈ st.offers ∧
        o.id = o0.id ∧ o.need_id = o0.need_id ∧ o.helper_user_id = o0.helper_user_id ∧
        o.message = o0.message ∧ o.helper_approved = o0.helper_approved) ∧
    (∀ o ∈ (approveAsHelperStore st offerId).offers, ∃ o0, o0 ∈ st.offers ∧
        o.id = o0.id ∧ o.need_id = o0.need_id ∧ o.helper_user_id = o0.helper_user_id ∧
        o.message = o0.message ∧ o.requester_approved = o0.requester_approved) := by
  refine ⟨rfl, rfl, rfl, rfl, rfl, rfl, ?_, ?_⟩ <;>
  · intro o ho
    simp only [approveAsRequesterStore, approveAsHelperStore, List.mem_map] at ho
    obtain ⟨o0, ho0, rfl⟩ := ho
    refine ⟨o0, ho0, ?_⟩
    by_cases h : o0.id = offerId <;> simp [h]

/-- Claim C6: for an `account.updated` event whose metadata names a user, the
handler sets that user's onboarding-complete flag to exactly
`details_submitted && payouts_enabled`; the write is an idempotent overwrite,
and a later event for the same user overwrites again with its own
`details_submitted && payouts_enabled` (so partial onboarding leaves the flag
false and a later fully-enabled event flips it to true). -/
theorem c6_account_updated_level_triggered (st : Store) (a : AccountEvent)
    (uid : String) (h : a.metadata_user_id = some uid) :
    (∀ p ∈ (handleAccountUpdated st a).profiles, p.user_id = uid →
        p.stripe_onboarding_complete = (a.details_submitted && a.payouts_enabled)) ∧
    handleAccountUpdated (handleAccountUpdated st a) a = handleAccountUpdated st a ∧
    (∀ b : AccountEvent, b.metadata_user_id = some uid →
      ∀ p ∈ (handleAccountUpdated (handleAccountUpdated st a) b).profiles, p.user_id = uid →
        p.stripe_onboarding_complete = (b.details_submitted && b.payouts_enabled)) := by
  have key : ∀ (st' : Store) (e : AccountEvent), e.metadata_user_id = some uid →
      ∀ p ∈ (handleAccountUpdated st' e).profiles, p.user_id = uid →
        p.stripe_onboarding_complete = (e.details_submitted && e.payouts_enabled) := by
    intro st' e he p hp hid
    simp only [handleAccountUpdated, he, updateProfileOnboarding, List.mem_map] at hp
    obtain ⟨p0, _, rfl⟩ := hp
    by_cases h0 : p0.user_id = uid <;> simp_all
  refine ⟨key st a h, ?_, fun b hb => key _ b hb⟩
  simp only [handleAccountUpdated, h, updateProfileOnboarding, List.map_map]
  congr 1
  apply List.map_congr_left
  intro p _
  by_cases hp : p.user_id = uid <;> simp [hp]

/-- Claim C6, witness: the incomplete-onboarding profile of `storeOnboarding`
worked at the concrete events `evtPartial` (details submitted, payouts not
enabled) and `evtComplete` (both). -/
theorem c6_account_updated_witness :
    (∀ p ∈ (handleAccountUpdated storeOnboarding evtPartial).profiles, p.user_id = "bob" →
        p.stripe_onboarding_complete = (evtPartial.details_submitted && evtPartial.payouts_enabled)) ∧
    handleAccountUpdated (handleAccountUpdated storeOnboarding evtPartial) evtPartial =
      handleAccountUpdated storeOnboarding evtPartial ∧
    (∀ b : AccountEvent, b.metadata_user_id = some "bob" →
      ∀ p ∈ (handleAccountUpdated (handleAccountUpdated storeOnboarding evtPartial) b).profiles,
        p.user_id = "bob" →
        p.stripe_onboarding_complete = (b.details_submitted && b.payouts_enabled)) :=
  c6_account_updated_level_triggered storeOnboarding evtPartial "bob" rfl

/-- Claim C7: once a help offer for a (need, helper) pair is in the store, the
`UNIQUE(need_id, helper_user_id)` constraint makes a second insert for the
same pair fail with a conflict, and the store it leaves behind is exactly the
store the insert was attempted on. -/
theorem c7_second_offer_conflicts (st st1 : Store) (o1 o2 : HelpOffer)
    (h1 : insertHelpOffer st o1 = (Except.ok (), st1))
    (hn : o2.need_id = o1.need_id) (hh : o2.helper_user_id = o1.helper_user_id) :
    insertHelpOffer st1 o2 = (Except.error DbError.conflict, st1) := by
  unfold insertHelpOffer at h1 ⊢
  split at h1
  · simp at h1
  · simp only [Prod.mk.injEq] at h1
    obtain ⟨-, h1⟩ := h1
    subst h1
    rw [if_pos]
    simp only [List.any_append, List.any_cons, List.any_nil, Bool.or_false,
      Bool.or_eq_true, List.any_eq_true]
    right
    simp [hn, hh]

/-- Claim C7, witness: inserting `offerA` into `storeFresh` succeeds, and then
inserting `offerDup` (same need, same helper, different row id) fails with a
conflict and leaves the store unchanged. -/
theorem c7_second_offer_conflicts_witness :
    insertHelpOffer { storeFresh with offers := storeFresh.offers ++ [offerA] } offerDup =
      (Except.error DbError.conflict, { storeFresh with offers := storeFresh.offers ++ [offerA] }) :=
  c7_second_offer_conflicts storeFresh _ offerA offerDup (by decide) rfl rfl

/-- Claim C5: when a paid `checkout.session.completed` event (with helper id
and helper amount in its metadata) arrives for a helper whose profile is
missing, has no connected account id, or has onboarding incomplete, the
handler creates no transfer, leaves the needs and profiles tables untouched,
and every commission for the session's help offer is marked
"transfer_pending". -/
theorem c5_incomplete_onboarding_transfer_pending (st : Store)
    (s : CheckoutSession) (md : SessionMeta) (huid : String) (hamt : ℚ)
    (tid now : String)
    (hpaid : s.payment_status = "paid")
    (hmd : s.metadata = some md)
    (hhu : md.helper_user_id = some huid)
    (hha : md.helper_amount = some hamt)
    (hacct : ∀ p, findProfile st.profiles huid = some p →
        p.stripe_account_id = none ∨ p.stripe_onboarding_complete = false) :
    (handleCheckoutSessionCompleted st s tid now).2 = [] ∧
    (handleCheckoutSessionCompleted st s tid now).1.needs = st.needs ∧
    (handleCheckoutSessionCompleted st s tid now).1.profiles = st.profiles ∧
    ∀ c ∈ (handleCheckoutSessionCompleted st s tid now).1.commissions,
      c.help_offer_id = md.help_offer_id → c.status = "transfer_pending" := by
  have hmain : handleCheckoutSessionCompleted st s tid now =
      ({ st with commissions := updateCommissionsByOffer st.commissions md.help_offer_id fun c => { c with status := "transfer_pending" } }, []) := by
    unfold handleCheckoutSessionCompleted
    rw [if_pos hpaid]
    simp only [hmd, hhu, hha]
    cases hp : findProfile st.profiles huid with
    | none => rfl
    | some p =>
      rcases hacct p hp with hnone | hfalse
      · simp only [hnone]
      · cases hq : p.stripe_account_id with
        | none => simp only [hq]
        | some acct => simp only [hq, hfalse, Bool.not_false, if_true]
  rw [hmain]
  refine ⟨rfl, rfl, rfl, ?_⟩
  intro c hc hid
  simp only [updateCommissionsByOffer, List.mem_map] at hc
  obtain ⟨c0, _, rfl⟩ := hc
  by_cases h0 : c0.help_offer_id = md.help_offer_id <;> simp_all

/-- When the need and offer exist, the offer is mutually approved, the
requester email is found, and the processor call succeeds, `processPayment`
returns the created session, and appends the pending commission exactly when
the insert succeeds. -/
theorem processPayment_success_eq (st : Store) (nid oid : String) (need : Need)
    (offer : HelpOffer) (e sid : String) (iOk : Bool)
    (hn : findNeed st.needs nid = some need)
    (ho : findOffer st.offers oid = some offer)
    (hra : offer.requester_approved = true)
    (hhe : offer.helper_approved = true) :
    processPayment st nid oid (some e) true sid iOk =
      ⟨(if iOk then
          { st with commissions := st.commissions ++ [pendingCommissionFor need offer nid oid sid] }
        else st),
        Except.ok (checkoutSessionFor need offer nid oid sid),
        [checkoutSessionFor need offer nid oid sid]⟩ := by
  rw [processPayment.eq_def, hn]
  simp [ho, hra, hhe]

/-- Claim C3, amended: if the processor checkout-session call fails, the
store is unchanged and no external session exists (the error surfaces before
any local write, so the failure is safe to retry); when the processor call
and the commission insert both succeed, the created session is returned and a
pending Commission keyed to the session id exists.  What the original claim
adds — that a session can never exist without the Commission row — fails when
the insert itself fails, which the source only logs (see the
counterexample). -/
theorem c3_upstream_failure_atomic (st : Store) (nid oid : String)
    (email : Option String) (sid : String) (iOk : Bool) :
    ((processPayment st nid oid email false sid iOk).store = st ∧
      (processPayment st nid oid email false sid iOk).sessionsCreated = []) ∧
    ∀ s, (processPayment st nid oid email true sid true).response = Except.ok s →
      (processPayment st nid oid email true sid true).sessionsCreated = [s] ∧
      ∃ c ∈ (processPayment st nid oid email true sid true).store.commissions,
        c.stripe_payment_intent_id = some sid ∧ c.status = "pending" := by
  constructor
  · rw [processPayment.eq_def]
    cases findNeed st.needs nid with
    | none => exact ⟨rfl, rfl⟩
    | some need =>
      cases findOffer st.offers oid with
      | none => exact ⟨rfl, rfl⟩
      | some offer =>
        dsimp only
        cases hb : (!offer.requester_approved || !offer.helper_approved) with
        | true => exact ⟨rfl, rfl⟩
        | false =>
          cases email with
          | none => exact ⟨rfl, rfl⟩
          | some e => exact ⟨rfl, rfl⟩
  · intro s hs
    cases hn : findNeed st.needs nid with
    | none => rw [processPayment.eq_def, hn] at hs; simp at hs
    | some need =>
      cases ho : findOffer st.offers oid with
      | none => rw [processPayment.eq_def, hn] at hs; simp [ho] at hs
      | some offer =>
        cases hra : offer.requester_approved with
        | false => rw [processPayment.eq_def, hn] at hs; simp [ho, hra] at hs
        | true =>
          cases hhe : offer.helper_approved with
          | false => rw [processPayment.eq_def, hn] at hs; simp [ho, hra, hhe] at hs
          | true =>
            cases email with
            | none => rw [processPayment.eq_def, hn] at hs; simp [ho, hra, hhe] at hs
            | some e =>
              rw [processPayment_success_eq st nid oid need offer e sid true hn ho hra hhe]
                at hs ⊢
              simp only [Except.ok.injEq] at hs
              subst hs
              refine ⟨rfl, pendingCommissionFor need offer nid oid sid, ?_, rfl, rfl⟩
              simp

/-- Claim C3, counterexample: with the processor call succeeding and the
commission insert failing, `process-payment` returns HTTP 200 with the
session, the external session exists, yet the store is completely unchanged —
no Commission row exists for the session, refuting "either both the external
session and the local Commission row exist, or neither". -/
theorem c3_insert_failure_counterexample :
    (processPayment storePayReady "need-1" "offer-1" (some "alice@x.se") true "cs_3" false).sessionsCreated.length = 1 ∧
    (processPayment storePayReady "need-1" "offer-1" (some "alice@x.se") true "cs_3" false).response.isOk = true ∧
    (processPayment storePayReady "need-1" "offer-1" (some "alice@x.se") true "cs_3" false).store = storePayReady := by
  rw [processPayment_success_eq storePayReady "need-1" "offer-1" needA offerA "alice@x.se" "cs_3"
    false rfl rfl rfl rfl]
  exact ⟨rfl, rfl, rfl⟩

/-- Claim C1, failing execution: the webhook reads nothing of the Commission's
current status before acting, so delivering the same paid
`checkout.session.completed` event twice creates a transfer BOTH times — after
the first call every commission of the offer is already "completed", yet the
second call still creates one more transfer instead of being a no-op.  Two
transfers in total refutes "exactly one funds transfer is created". -/
theorem c1_duplicate_webhook_two_transfers :
    (handleCheckoutSessionCompleted storeSettleReady paidSessionA "tr_1" "t1").2.length = 1 ∧
    (∀ c ∈ (handleCheckoutSessionCompleted storeSettleReady paidSessionA "tr_1" "t1").1.commissions,
        c.status = "completed") ∧
    (handleCheckoutSessionCompleted
        (handleCheckoutSessionCompleted storeSettleReady paidSessionA "tr_1" "t1").1
        paidSessionA "tr_2" "t2").2.length = 1 := by
  refine ⟨rfl, ?_, rfl⟩
  decide

/-- Claim C2, failing execution: `process-payment` never reads the Need's
status, so a payment for a Need that is already completed is not rejected with
a conflict — at `storeDoneNeed` (need completed, offer mutually approved) the
call succeeds and creates a checkout session. -/
theorem c2_completed_need_payment_not_rejected :
    needDone.status = NeedStatus.completed ∧
    offerA.requester_approved = true ∧
    offerA.helper_approved = true ∧
    (processPayment storeDoneNeed "need-1" "offer-1" (some "alice@x.se") true "cs_9" true).response.isOk = true ∧
    (processPayment storeDoneNeed "need-1" "offer-1" (some "alice@x.se") true "cs_9" true).sessionsCreated.length = 1 := by
  rw [processPayment_success_eq storeDoneNeed "need-1" "offer-1" needDone offerA "alice@x.se"
    "cs_9" true rfl rfl rfl rfl]
  exact ⟨rfl, rfl, rfl, rfl, rfl⟩

/-- Claim C10: a Need whose budget amount is null is not rejected by
`process-payment` — the amount coalesces to 0, the checkout session is
created with `unit_amount` 0, and the persisted pending commission has
`original_amount` 0 and `commission_amount` 0. -/
theorem c10_null_budget_zero_amounts (st : Store) (nid oid : String) (need : Need)
    (offer : HelpOffer) (e sid : String)
    (hn : findNeed st.needs nid = some need)
    (hb : need.budget_amount = none)
    (ho : findOffer st.offers oid = some offer)
    (hra : offer.requester_approved = true)
    (hhe : offer.helper_approved = true) :
    (processPayment st nid oid (some e) true sid true).response =
      Except.ok (checkoutSessionFor need offer nid oid sid) ∧
    (checkoutSessionFor need offer nid oid sid).unit_amount = 0 ∧
    ∃ c ∈ (processPayment st nid oid (some e) true sid true).store.commissions,
      c.stripe_payment_intent_id = some sid ∧ c.original_amount = 0 ∧
      c.commission_amount = 0 := by
  rw [processPayment_success_eq st nid oid need offer e sid true hn ho hra hhe]
  refine ⟨rfl, ?_, pendingCommissionFor need offer nid oid sid, by simp, rfl, ?_, ?_⟩
  · simp only [checkoutSessionFor, originalAmountOf, hb, Option.getD_none, zero_mul, jsRound]
    norm_num
  · simp [pendingCommissionFor, originalAmountOf, hb]
  · simp [pendingCommissionFor, originalAmountOf, commissionAmountOf, hb]

/-- Claim C10, witness: the concrete store `storeNoBudget`, whose need has a
null budget, worked through `c10_null_budget_zero_amounts`. -/
theorem c10_null_budget_zero_amounts_witness :
    (processPayment storeNoBudget "need-1" "offer-1" (some "alice@x.se") true "cs_0" true).response =
      Except.ok (checkoutSessionFor needNoBudget offerA "need-1" "offer-1" "cs_0") ∧
    (checkoutSessionFor needNoBudget offerA "need-1" "offer-1" "cs_0").unit_amount = 0 ∧
    ∃ c ∈ (processPayment storeNoBudget "need-1" "offer-1" (some "alice@x.se") true "cs_0" true).store.commissions,
      c.stripe_payment_intent_id = some "cs_0" ∧ c.original_amount = 0 ∧
      c.commission_amount = 0 :=
  c10_null_budget_zero_amounts storeNoBudget "need-1" "offer-1" needNoBudget offerA
    "alice@x.se" "cs_0" rfl rfl rfl rfl rfl

/-- Claim C5, witness: at the concrete store `storeNoAccount` (helper "bob"
has no connected account) and the paid session `paidSessionA`, the handler
creates no transfer, touches neither needs nor profiles, and the pending
commission for "offer-1" becomes "transfer_pending". -/
theorem c5_incomplete_onboarding_transfer_pending_witness :
    (handleCheckoutSessionCompleted storeNoAccount paidSessionA "tr_1" "t1").2 = [] ∧
    (handleCheckoutSessionCompleted storeNoAccount paidSessionA "tr_1" "t1").1.needs =
      storeNoAccount.needs ∧
    (handleCheckoutSessionCompleted storeNoAccount paidSessionA "tr_1" "t1").1.profiles =
      storeNoAccount.profiles ∧
    ∀ c ∈ (handleCheckoutSessionCompleted storeNoAccount paidSessionA "tr_1" "t1").1.commissions,
      c.help_offer_id = paidMetaA.help_offer_id → c.status = "transfer_pending" :=
  c5_incomplete_onboarding_transfer_pending storeNoAccount paidSessionA paidMetaA "bob"
    180 "tr_1" "t1" rfl rfl rfl rfl (by
      intro p hp
      have h0 : findProfile storeNoAccount.profiles "bob" = some bobNoAccount := rfl
      rw [h0] at hp
      cases hp
      exact Or.inl rfl)
